import Mathlib

/-!
Shallow embedding of `src/torch_geometric_temporal/nn/convolutional/mstgcn.py`
(the whole repository is this one file): the MSTGCN architecture, a stack of
MSTGCNBlock modules followed by one fusion convolution.

The layers the constructors build (`ChebConv`, `nn.Conv2d`, `nn.LayerNorm`)
are library modules outside the repository; they are embedded by their
configuration (channel counts, kernel, stride, padding), which is all the
constructor fixes and all the claims about wiring depend on.  Learnable
weight values are never read on any execution path of this repository's code
(see `MSTGCNBlock.forward` below), so they are not modelled as data.

Tensors are modelled as a shape (a list of dimension sizes) together with
row-major rational entries; Python exceptions are modelled with `Except`.
-/

namespace MSTGCNSpec

/-- A tensor value: its shape and its flattened (row-major) entries.
Entries are rationals, so every value is finite by construction. -/
structure Tensor where
  shape : List Nat
  data : List ℚ
deriving DecidableEq

/-- The `edge_index` argument of the forward passes (mstgcn.py lines 39, 120):
either a single edge-index array shared by all time steps, or a Python list
with one edge-index array per time step (`isinstance(edge_index, list)` at
line 54 distinguishes the two).  An edge-index array is a list of directed
(source, target) pairs. -/
inductive EdgeIndexArg where
  | single (edge_index : List (Nat × Nat))
  | perStep (edge_indices : List (List (Nat × Nat)))
deriving DecidableEq

/-- A raised Python exception, by kind and the offending name or message. -/
inductive PyErr where
  | nameError (name : String)
  | attributeError (name : String)
  | runtimeError (msg : String)
deriving DecidableEq

/-- Configuration of a `torch_geometric.nn.ChebConv` layer as built at
mstgcn.py line 25: `ChebConv(in_channels, nb_chev_filter, K, normalization=None)`. -/
structure ChebConvCfg where
  in_channels : Nat
  out_channels : Nat
  K : Nat
deriving DecidableEq

/-- Configuration of a `torch.nn.Conv2d` layer: channel counts, kernel size,
stride and padding, each as an (height, width) pair in PyTorch's order. -/
structure Conv2dCfg where
  in_channels : Nat
  out_channels : Nat
  kernel : Nat × Nat
  stride : Nat × Nat
  padding : Nat × Nat
deriving DecidableEq

/-- Configuration of a `torch.nn.LayerNorm` layer: the normalized shape
(here always the single channel dimension, mstgcn.py line 28). -/
structure LayerNormCfg where
  normalized_shape : Nat
deriving DecidableEq

/-- An `MSTGCNBlock` instance.  Field names are the attribute names
`MSTGCNBlock.__init__` stores (mstgcn.py lines 25-29): the underscore-prefixed
`_cheb_conv`, `_time_conv`, `_residual_conv`, `_layer_norm`,
`_nb_time_filter`.  (The body of `MSTGCNBlock.forward` instead reads the
attribute names without the underscore, which do not exist on the instance;
see `MSTGCNBlock.forward` below.) -/
structure MSTGCNBlock where
  cheb_conv_ : ChebConvCfg
  time_conv_ : Conv2dCfg
  residual_conv_ : Conv2dCfg
  layer_norm_ : LayerNormCfg
  nb_time_filter_ : Nat
deriving DecidableEq

/-- Embedding of `MSTGCNBlock.__init__` (mstgcn.py lines 22-30):

* line 25: `self._cheb_conv = ChebConv(in_channels, nb_chev_filter, K, normalization=None)`
* line 26: `self._time_conv = nn.Conv2d(nb_chev_filter, nb_time_filter, kernel_size=(1, 3), stride=(1, time_strides), padding=(0, 1))`
* line 27: `self._residual_conv = nn.Conv2d(in_channels, nb_time_filter, kernel_size=(1, 1), stride=(1, time_strides))` (default padding (0, 0))
* line 28: `self._layer_norm = nn.LayerNorm(nb_time_filter)`
* line 29: `self._nb_time_filter = nb_time_filter`

The weight initialization of line 30 (`self._reset_parameters()`) draws
random values for the layers' weight tensors; no claim depends on weight
values (no execution of this repository's code ever reads one), so it is not
modelled. -/
def MSTGCNBlock.make (in_channels K nb_chev_filter nb_time_filter time_strides : Nat) :
    MSTGCNBlock where
  cheb_conv_ := { in_channels := in_channels, out_channels := nb_chev_filter, K := K }
  time_conv_ :=
    { in_channels := nb_chev_filter
      out_channels := nb_time_filter
      kernel := (1, 3)
      stride := (1, time_strides)
      padding := (0, 1) }
  residual_conv_ :=
    { in_channels := in_channels
      out_channels := nb_time_filter
      kernel := (1, 1)
      stride := (1, time_strides)
      padding := (0, 0) }
  layer_norm_ := { normalized_shape := nb_time_filter }
  nb_time_filter_ := nb_time_filter

/-- Embedding of `MSTGCNBlock.forward` (mstgcn.py lines 39-79).

The method's parameter is bound as `X` (line 39), but the first statement of
the body, line 53, is `batch_size, num_of_vertices, in_channels,
num_of_timesteps = x.shape`, reading the local name `x`.  No assignment in
the body binds `x`, so CPython raises `NameError: name 'x' is not defined`
there, before any tensor operation executes, for every input tensor and
every `edge_index` argument.  Every later line of the body is unreachable
(and would itself fail with `AttributeError`: lines 59, 61, 67, 72, 75, 77
read `self.cheb_conv`, `self.nb_time_filter`, `self.time_conv`,
`self.residual_conv`, `self.layer_norm`, while the constructor stores only
the underscore-prefixed attributes, see `MSTGCNBlock.make`).  The embedding
therefore returns that `NameError` for every input. -/
def MSTGCNBlock.forward (_self : MSTGCNBlock) (_X : Tensor)
    (_edge_index : EdgeIndexArg) : Except PyErr Tensor :=
  Except.error (PyErr.nameError "x")

/-- An `MSTGCN` instance: the attributes `MSTGCN.__init__` stores
(mstgcn.py lines 102-106): `_blocklist` and `_final_conv`. -/
structure MSTGCN where
  blocklist_ : List MSTGCNBlock
  final_conv_ : Conv2dCfg
deriving DecidableEq

/-- Embedding of `MSTGCN.__init__` (mstgcn.py lines 98-108):

* line 102: `self._blocklist = nn.ModuleList([MSTGCNBlock(in_channels, K, nb_chev_filter, nb_time_filter, time_strides)])`
* line 104: `self._blocklist.extend([MSTGCNBlock(nb_time_filter, K, nb_chev_filter, nb_time_filter, 1) for _ in range(nb_block-1)])`
* line 106: `self._final_conv = nn.Conv2d(int(len_input/time_strides), num_for_predict, kernel_size=(1, nb_time_filter))` (default stride (1, 1), padding (0, 0))

`int(len_input/time_strides)` truncates the float quotient toward zero,
which for the nonnegative integer arguments in range is floor division,
embedded as `Nat` division.  `range(nb_block-1)` is empty when
`nb_block <= 1`, matching `Nat` truncated subtraction in
`List.replicate (nb_block - 1)`.  As in `MSTGCNBlock.make`, the random
weight initialization of line 108 is not modelled. -/
def MSTGCN.make (nb_block in_channels K nb_chev_filter nb_time_filter
    time_strides num_for_predict len_input : Nat) : MSTGCN where
  blocklist_ :=
    MSTGCNBlock.make in_channels K nb_chev_filter nb_time_filter time_strides ::
      List.replicate (nb_block - 1)
        (MSTGCNBlock.make nb_time_filter K nb_chev_filter nb_time_filter 1)
  final_conv_ :=
    { in_channels := len_input / time_strides
      out_channels := num_for_predict
      kernel := (1, nb_time_filter)
      stride := (1, 1)
      padding := (0, 0) }

/-- The block loop of `MSTGCN.forward` (mstgcn.py lines 132-133):
`for block in self._blocklist: X = block(X, edge_index)`.  A Python
exception raised by a block aborts the loop and propagates, which the
`Except` monad's bind models. -/
def runBlocks (blocks : List MSTGCNBlock) (X : Tensor)
    (edge_index : EdgeIndexArg) : Except PyErr Tensor :=
  blocks.foldlM (fun acc b => b.forward acc edge_index) X

/-- Output width of a `Conv2d` along its second (width) axis on an input of
width `w`, per the tensor engine's documented formula
`floor((w + 2*padding - kernel) / stride) + 1`.  (The engine rejects inputs
with `w + 2*padding < kernel`; every use below has `w + 2*padding >= kernel`,
where `Nat` truncated subtraction agrees with the formula.) -/
def Conv2dCfg.outWidth (cfg : Conv2dCfg) (w : Nat) : Nat :=
  (w + 2 * cfg.padding.2 - cfg.kernel.2) / cfg.stride.2 + 1

/-- Shape-level semantics of the fusion line of `MSTGCN.forward`
(mstgcn.py line 135):
`X = self._final_conv(X.permute(0, 3, 1, 2))[:, :, :, -1].permute(0, 2, 1)`.
On an input of shape `(B, N, F, T)` the permutation feeds `(B, T, N, F)` to
the convolution, which requires `T` to equal its declared input-channel
count and its `(1, nb_time_filter)` kernel to fit the `(N, F)` plane; the
`[:, :, :, -1]` slice then needs a nonempty last axis, and the final permute
yields shape `(B, N, num_for_predict)`.  This step is unreachable in every
execution of `MSTGCN.forward` (the block loop always raises first, see
`MSTGCNBlock.forward`), so only its declared geometry matters to the claims;
the entry values of the never-produced output are left as zeros. -/
def MSTGCN.finalStep (self : MSTGCN) (X : Tensor) : Except PyErr Tensor :=
  match X.shape with
  | [b, n, f, t] =>
      if t ≠ self.final_conv_.in_channels then
        Except.error (PyErr.runtimeError "final_conv channel mismatch")
      else if n + 2 * self.final_conv_.padding.1 < self.final_conv_.kernel.1 ∨
          f + 2 * self.final_conv_.padding.2 < self.final_conv_.kernel.2 then
        Except.error (PyErr.runtimeError "final_conv kernel exceeds input plane")
      else
        Except.ok
          { shape := [b, n, self.final_conv_.out_channels]
            data := List.replicate (b * n * self.final_conv_.out_channels) 0 }
  | _ => Except.error (PyErr.runtimeError "final_conv expects a rank-4 input")

/-- Embedding of `MSTGCN.forward` (mstgcn.py lines 120-136): run the blocks
in order on `X` (lines 132-133), then apply the fusion convolution
(line 135).  An exception raised inside a block propagates unchanged and the
fusion step is not reached. -/
def MSTGCN.forward (self : MSTGCN) (X : Tensor) (edge_index : EdgeIndexArg) :
    Except PyErr Tensor :=
  (runBlocks self.blocklist_ X edge_index).bind self.finalStep

/-- State-passing form of `MSTGCN.forward`: a Python method call may in
general mutate the instance, so this form also returns the instance as it
stands after the call.  No statement of the body (mstgcn.py lines 132-136)
assigns to any attribute of `self` — the loop rebinds only the local name
`X` — so the statement-by-statement translation returns the instance
unchanged. -/
def MSTGCN.forwardS (self : MSTGCN) (X : Tensor) (edge_index : EdgeIndexArg) :
    Except PyErr Tensor × MSTGCN :=
  (self.forward X edge_index, self)

/-- Temporal length a block would emit for an input of temporal length `t`,
determined by its declared temporal convolution (`_time_conv`, mstgcn.py
line 26; the residual convolution of line 27 yields the same length, as
`residual_time_conv_agree` below proves). -/
def MSTGCNBlock.outTimeLen (blk : MSTGCNBlock) (t : Nat) : Nat :=
  blk.time_conv_.outWidth t

/-- Temporal length the declared block chain of a model would emit for an
input of temporal length `t`: the fold of `MSTGCNBlock.outTimeLen` over
`_blocklist` in order. -/
def MSTGCN.chainOutTimeLen (m : MSTGCN) (t : Nat) : Nat :=
  m.blocklist_.foldl (fun acc b => b.outTimeLen acc) t

/-- The fixed edge list of the end-to-end scenario: 8 directed edges over
5 nodes. -/
def edges8 : List (Nat × Nat) :=
  [(0, 1), (1, 2), (2, 3), (3, 4), (4, 0), (0, 2), (1, 3), (2, 4)]

/-- A small edge list over 3 nodes: a directed 3-cycle. -/
def edges3 : List (Nat × Nat) := [(0, 1), (1, 2), (2, 0)]

/-- Input signal of the end-to-end scenario: shape
(B, N, F_in, T_in) = (2, 5, 2, 12), with 2*5*2*12 = 240 entries. -/
def tensorScenario : Tensor :=
  { shape := [2, 5, 2, 12], data := List.replicate 240 1 }

/-- A small input signal: shape (B, N, F_in, T_in) = (1, 3, 1, 4). -/
def tensorSmall : Tensor :=
  { shape := [1, 3, 1, 4], data := List.replicate 12 1 }

/-! ## Helper lemmas on the declared temporal geometry -/

/-- The temporal convolution (kernel width 3, padding 1, mstgcn.py line 26)
and the residual convolution (kernel width 1, padding 0, line 27) of a block
emit the same output width on every input width, since both use the same
stride: a block's emitted temporal length is well-defined. -/
theorem residual_time_conv_agree (ic K cf tf ts t : Nat) :
    (MSTGCNBlock.make ic K cf tf ts).time_conv_.outWidth t
      = (MSTGCNBlock.make ic K cf tf ts).residual_conv_.outWidth t := by
  have h : t + 2 * 1 - 3 = t + 2 * 0 - 1 := by omega
  show (t + 2 * 1 - 3) / ts + 1 = (t + 2 * 0 - 1) / ts + 1
  rw [h]

/-- Closed form of a block's emitted temporal length: kernel width 3 with
padding 1 gives `(t - 1) / stride + 1`. -/
theorem outTimeLen_make (ic K cf tf ts t : Nat) :
    (MSTGCNBlock.make ic K cf tf ts).outTimeLen t = (t - 1) / ts + 1 := by
  have h : t + 2 * 1 - 3 = t - 1 := by omega
  show (t + 2 * 1 - 3) / ts + 1 = (t - 1) / ts + 1
  rw [h]

/-- A block's emitted temporal length is the ceiling `ceil(t / stride)`,
written `(t + stride - 1) / stride`, for positive stride and length. -/
theorem outTimeLen_eq_ceil (ic K cf tf ts t : Nat) (hts : 1 ≤ ts) (ht : 1 ≤ t) :
    (MSTGCNBlock.make ic K cf tf ts).outTimeLen t = (t + ts - 1) / ts := by
  rw [outTimeLen_make]
  have h : t + ts - 1 = t - 1 + ts := by omega
  rw [h, Nat.add_div_right _ hts]

/-- A stride-1 block preserves every positive temporal length. -/
theorem outTimeLen_stride_one (ic K cf tf t : Nat) (ht : 1 ≤ t) :
    (MSTGCNBlock.make ic K cf tf 1).outTimeLen t = t := by
  rw [outTimeLen_make, Nat.div_one]
  omega

/-- A chain of stride-1 blocks preserves every positive temporal length. -/
theorem chain_replicate_stride_one (n ic K cf tf t : Nat) (ht : 1 ≤ t) :
    (List.replicate n (MSTGCNBlock.make ic K cf tf 1)).foldl
      (fun acc b => b.outTimeLen acc) t = t := by
  induction n generalizing t with
  | zero => rfl
  | succ k ih =>
      rw [List.replicate_succ, List.foldl_cons]
      show (List.replicate k _).foldl _ ((MSTGCNBlock.make ic K cf tf 1).outTimeLen t) = t
      rw [outTimeLen_stride_one ic K cf tf t ht]
      exact ih t ht

/-- Exact division shifted by one: for `ts ∣ li` and `li ≥ 1`,
`(li - 1) / ts + 1 = li / ts`. -/
theorem div_pred_succ (ts li : Nat) (hli : 1 ≤ li) (hdvd : ts ∣ li) :
    (li - 1) / ts + 1 = li / ts := by
  obtain ⟨k, hk⟩ : ∃ k, li = k + 1 := ⟨li - 1, by omega⟩
  subst hk
  rw [Nat.succ_div, if_pos hdvd]
  simp

/-! ## Claim theorems -/

/-- C3: every call of `MSTGCNBlock.forward` raises a name-resolution error
(`NameError` on the unbound name `x`) before any tensor computation — the
parameter is declared `X` but the body reads `x`, and the body's attribute
reads (`cheb_conv`, `nb_time_filter`, `time_conv`, `residual_conv`,
`layer_norm`) name attributes the constructor never stores (it stores the
underscore-prefixed ones) — and consequently `MSTGCN.forward` fails with
that same error on every input, for every constructed model with
`nb_block >= 1`. -/
theorem block_forward_raises_name_resolution_error :
    (∀ (blk : MSTGCNBlock) (X : Tensor) (E : EdgeIndexArg),
      blk.forward X E = Except.error (PyErr.nameError "x")) ∧
    (∀ (nb ic K cf tf ts np li : Nat), 1 ≤ nb →
      ∀ (X : Tensor) (E : EdgeIndexArg),
        (MSTGCN.make nb ic K cf tf ts np li).forward X E
          = Except.error (PyErr.nameError "x")) := by
  constructor
  · intro blk X E
    rfl
  · intro nb ic K cf tf ts np li _ X E
    rfl

/-- C1 (divergence record): at the valid configuration nb_block = 1,
in_channels = 1, K = 2, nb_chev_filter = 4, nb_time_filter = 4,
time_strides = 1, num_for_predict = 2, len_input = 4, on an input of shape
(B, N, F_in, T_in) = (1, 3, 1, 4) with a constant connectivity,
`MSTGCN.forward` does not return a tensor of shape (B, N, num_for_predict):
it raises `NameError` on the unbound name `x`, from the first block's
forward pass. -/
theorem mstgcn_output_shape_bug :
    ((MSTGCN.make 1 1 2 4 4 1 2 4).forward tensorSmall (EdgeIndexArg.single edges3)
      = Except.error (PyErr.nameError "x")) ∧
    (((MSTGCN.make 1 1 2 4 4 1 2 4).forward tensorSmall
        (EdgeIndexArg.single edges3)).toOption = none) :=
  ⟨rfl, rfl⟩

/-- C2 (divergence record): at the end-to-end scenario configuration
(B = 2, N = 5, F_in = 2, T_in = 12, K = 3, nb_chev_filter = 8,
nb_time_filter = 8, time_strides = 2, nb_block = 2, num_for_predict = 3,
len_input = 12, constant connectivity of 8 directed edges over 5 nodes),
`MSTGCN.forward` does not succeed: it raises `NameError` on the unbound
name `x` and produces no output tensor at all. -/
theorem mstgcn_scenario_bug :
    ((MSTGCN.make 2 2 3 8 8 2 3 12).forward tensorScenario
        (EdgeIndexArg.single edges8)
      = Except.error (PyErr.nameError "x")) ∧
    (((MSTGCN.make 2 2 3 8 8 2 3 12).forward tensorScenario
        (EdgeIndexArg.single edges8)).toOption = none) :=
  ⟨rfl, rfl⟩

/-- C4 (divergence record): for each stride in {1, 2, 3}, a block run on a
T_in = 12 input returns no output tensor at all — `MSTGCNBlock.forward`
raises `NameError` on the unbound name `x` — while the block's declared
temporal convolution (kernel width 3, padding 1, the stated stride) would
emit exactly ceil(12 / stride) time steps: 12, 6 and 4. -/
theorem block_stride_output_bug :
    ((MSTGCNBlock.make 2 3 8 8 1).forward tensorScenario
        (EdgeIndexArg.single edges8) = Except.error (PyErr.nameError "x")) ∧
    ((MSTGCNBlock.make 2 3 8 8 2).forward tensorScenario
        (EdgeIndexArg.single edges8) = Except.error (PyErr.nameError "x")) ∧
    ((MSTGCNBlock.make 2 3 8 8 3).forward tensorScenario
        (EdgeIndexArg.single edges8) = Except.error (PyErr.nameError "x")) ∧
    ((MSTGCNBlock.make 2 3 8 8 1).outTimeLen 12 = 12) ∧
    ((MSTGCNBlock.make 2 3 8 8 2).outTimeLen 12 = 6) ∧
    ((MSTGCNBlock.make 2 3 8 8 3).outTimeLen 12 = 4) :=
  ⟨rfl, rfl, rfl, rfl, rfl, rfl⟩

/-- C5 (divergence record): with identical parameters, the same input and
the same 8-edge connectivity given once (static path) and repeated
T_in = 12 times (time-varying path), neither call of
`MSTGCNBlock.forward` produces a numeric output: both raise the identical
`NameError` on the unbound name `x` before reaching either spatial-filter
path. -/
theorem block_connectivity_modes_bug :
    ((MSTGCNBlock.make 8 3 8 8 1).forward tensorScenario
        (EdgeIndexArg.single edges8) = Except.error (PyErr.nameError "x")) ∧
    ((MSTGCNBlock.make 8 3 8 8 1).forward tensorScenario
        (EdgeIndexArg.perStep (List.replicate 12 edges8))
      = Except.error (PyErr.nameError "x")) :=
  ⟨rfl, rfl⟩

/-- C8 (divergence record): on a concrete input, for both connectivity
modes, `MSTGCNBlock.forward` raises `NameError` on the unbound name `x`
before the Chebyshev graph convolution and its rectifying nonlinearity run,
so no intermediate spatial-filter output tensor is ever produced whose
entries could be inspected for non-negativity. -/
theorem block_relu_stage_bug :
    ((MSTGCNBlock.make 1 2 4 4 1).forward tensorSmall
        (EdgeIndexArg.single edges3) = Except.error (PyErr.nameError "x")) ∧
    ((MSTGCNBlock.make 1 2 4 4 1).forward tensorSmall
        (EdgeIndexArg.perStep (List.replicate 4 edges3))
      = Except.error (PyErr.nameError "x")) :=
  ⟨rfl, rfl⟩

/-- C6 counterexample: with nb_block = 1, time_strides = 2 and
len_input = 13, the fusion convolution's declared input depth is
`int(13 / 2) = 6`, but the declared block chain emits
ceil(13 / 2) = 7 time steps, so the invariant fails as stated. -/
theorem final_conv_depth_counterexample :
    ((MSTGCN.make 1 1 1 1 1 2 1 13).final_conv_.in_channels = 6) ∧
    ((MSTGCN.make 1 1 1 1 1 2 1 13).chainOutTimeLen 13 = 7) ∧
    ¬ ((MSTGCN.make 1 1 1 1 1 2 1 13).final_conv_.in_channels
        = (MSTGCN.make 1 1 1 1 1 2 1 13).chainOutTimeLen 13) := by
  refine ⟨rfl, rfl, ?_⟩
  decide

/-- C6 amended: whenever `time_strides` divides `len_input` (and
`len_input >= 1`), the fusion convolution's declared input depth
`int(len_input / time_strides)` equals the temporal length the declared
block chain emits, and its kernel height always equals the last block's
time-filter count `nb_time_filter`.  When `time_strides` does not divide
`len_input`, the declared depth is the floor while the chain emits the
ceiling, and the two differ. -/
theorem final_conv_depth_amended
    (nb ic K cf tf ts np li : Nat) (hli : 1 ≤ li) (hdvd : ts ∣ li) :
    ((MSTGCN.make nb ic K cf tf ts np li).final_conv_.in_channels
      = (MSTGCN.make nb ic K cf tf ts np li).chainOutTimeLen li) ∧
    ((MSTGCN.make nb ic K cf tf ts np li).final_conv_.kernel.2 = tf) := by
  refine ⟨?_, rfl⟩
  have hchain : (MSTGCN.make nb ic K cf tf ts np li).chainOutTimeLen li
      = (li - 1) / ts + 1 := by
    show (MSTGCNBlock.make ic K cf tf ts ::
        List.replicate (nb - 1) (MSTGCNBlock.make tf K cf tf 1)).foldl
          (fun acc b => b.outTimeLen acc) li = (li - 1) / ts + 1
    rw [List.foldl_cons]
    show (List.replicate (nb - 1) (MSTGCNBlock.make tf K cf tf 1)).foldl
        (fun acc b => b.outTimeLen acc)
        ((MSTGCNBlock.make ic K cf tf ts).outTimeLen li) = (li - 1) / ts + 1
    rw [outTimeLen_make]
    exact chain_replicate_stride_one (nb - 1) tf K cf tf ((li - 1) / ts + 1)
      (Nat.succ_le_succ (Nat.zero_le _))
  rw [hchain]
  show li / ts = (li - 1) / ts + 1
  exact (div_pred_succ ts li hli hdvd).symm

/-- C6 witness for the amended claim, at nb_block = 2, time_strides = 2,
len_input = 12, nb_time_filter = 8: both hypotheses hold and the fusion
convolution's declared depth (6) equals the chain's emitted length. -/
theorem final_conv_depth_amended_witness :
    ((MSTGCN.make 2 2 3 8 8 2 3 12).final_conv_.in_channels
      = (MSTGCN.make 2 2 3 8 8 2 3 12).chainOutTimeLen 12) ∧
    ((MSTGCN.make 2 2 3 8 8 2 3 12).final_conv_.kernel.2 = 8) :=
  final_conv_depth_amended 2 2 3 8 8 2 3 12 (by decide) (by decide)

/-- C7: a model built with `nb_block >= 1` holds exactly `nb_block` blocks
in order: the head block is built from the raw input channel count and the
configured stride `time_strides` and outputs `nb_time_filter` channels, and
every subsequent block is built from `nb_time_filter` input channels with
stride 1 and outputs `nb_time_filter` channels. -/
theorem mstgcn_block_chain_structure
    (nb ic K cf tf ts np li : Nat) (h : 1 ≤ nb) :
    ((MSTGCN.make nb ic K cf tf ts np li).blocklist_.length = nb) ∧
    ((MSTGCN.make nb ic K cf tf ts np li).blocklist_.head? =
      some (MSTGCNBlock.make ic K cf tf ts)) ∧
    (∀ blk ∈ (MSTGCN.make nb ic K cf tf ts np li).blocklist_.tail,
      blk = MSTGCNBlock.make tf K cf tf 1) ∧
    ((MSTGCNBlock.make ic K cf tf ts).residual_conv_.in_channels = ic) ∧
    ((MSTGCNBlock.make ic K cf tf ts).time_conv_.out_channels = tf) ∧
    ((MSTGCNBlock.make ic K cf tf ts).time_conv_.stride = (1, ts)) ∧
    ((MSTGCNBlock.make tf K cf tf 1).residual_conv_.in_channels = tf) ∧
    ((MSTGCNBlock.make tf K cf tf 1).time_conv_.out_channels = tf) ∧
    ((MSTGCNBlock.make tf K cf tf 1).time_conv_.stride = (1, 1)) := by
  refine ⟨?_, rfl, ?_, rfl, rfl, rfl, rfl, rfl, rfl⟩
  · show (MSTGCNBlock.make ic K cf tf ts ::
        List.replicate (nb - 1) (MSTGCNBlock.make tf K cf tf 1)).length = nb
    rw [List.length_cons, List.length_replicate]
    omega
  · intro blk hblk
    exact List.eq_of_mem_replicate hblk

/-- C7 witness: the structure theorem at the concrete construction
nb_block = 3, in_channels = 2, K = 3, nb_chev_filter = 8,
nb_time_filter = 8, time_strides = 2, num_for_predict = 3,
len_input = 12. -/
theorem mstgcn_block_chain_structure_witness :
    (((MSTGCN.make 3 2 3 8 8 2 3 12).blocklist_.length = 3) ∧
    ((MSTGCN.make 3 2 3 8 8 2 3 12).blocklist_.head? =
      some (MSTGCNBlock.make 2 3 8 8 2)) ∧
    (∀ blk ∈ (MSTGCN.make 3 2 3 8 8 2 3 12).blocklist_.tail,
      blk = MSTGCNBlock.make 8 3 8 8 1) ∧
    ((MSTGCNBlock.make 2 3 8 8 2).residual_conv_.in_channels = 2) ∧
    ((MSTGCNBlock.make 2 3 8 8 2).time_conv_.out_channels = 8) ∧
    ((MSTGCNBlock.make 2 3 8 8 2).time_conv_.stride = (1, 2)) ∧
    ((MSTGCNBlock.make 8 3 8 8 1).residual_conv_.in_channels = 8) ∧
    ((MSTGCNBlock.make 8 3 8 8 1).time_conv_.out_channels = 8) ∧
    ((MSTGCNBlock.make 8 3 8 8 1).time_conv_.stride = (1, 1))) :=
  mstgcn_block_chain_structure 3 2 3 8 8 2 3 12 (by decide)

/-- C9: when the block loop of `MSTGCN.forward` fails with an exception,
the model's forward pass returns exactly that first failure — the fusion
step is never applied, nothing is recovered or retried, and no partial
output is produced. -/
theorem mstgcn_forward_propagates_first_failure
    (m : MSTGCN) (X : Tensor) (E : EdgeIndexArg) (e : PyErr)
    (h : runBlocks m.blocklist_ X E = Except.error e) :
    m.forward X E = Except.error e := by
  show (runBlocks m.blocklist_ X E).bind m.finalStep = Except.error e
  rw [h]
  rfl

/-- C9 witness: at the end-to-end scenario model and input, the block loop
fails with `NameError` on `x`, and `MSTGCN.forward` returns exactly that
error. -/
theorem mstgcn_forward_propagates_first_failure_witness :
    (MSTGCN.make 2 2 3 8 8 2 3 12).forward tensorScenario
        (EdgeIndexArg.perStep (List.replicate 12 edges8))
      = Except.error (PyErr.nameError "x") :=
  mstgcn_forward_propagates_first_failure
    (MSTGCN.make 2 2 3 8 8 2 3 12) tensorScenario
    (EdgeIndexArg.perStep (List.replicate 12 edges8))
    (PyErr.nameError "x") rfl

/-- C10: the forward evaluation is a deterministic pure function of the
model's parameters and its two inputs — equal model, input tensor and
connectivity give equal results — and the state-passing form returns the
model unchanged: no attribute of the instance is written by the call. -/
theorem mstgcn_forward_deterministic_and_pure
    (m m' : MSTGCN) (X X' : Tensor) (E E' : EdgeIndexArg)
    (hm : m = m') (hX : X = X') (hE : E = E') :
    m.forwardS X E = m'.forwardS X' E' ∧ (m.forwardS X E).2 = m := by
  subst hm hX hE
  exact ⟨rfl, rfl⟩

/-- C10 witness: the determinism-and-purity theorem applied at the
scenario model and input. -/
theorem mstgcn_forward_deterministic_and_pure_witness :
    ((MSTGCN.make 2 2 3 8 8 2 3 12).forwardS tensorScenario
        (EdgeIndexArg.single edges8)
      = (MSTGCN.make 2 2 3 8 8 2 3 12).forwardS tensorScenario
        (EdgeIndexArg.single edges8)) ∧
    (((MSTGCN.make 2 2 3 8 8 2 3 12).forwardS tensorScenario
        (EdgeIndexArg.single edges8)).2 = MSTGCN.make 2 2 3 8 8 2 3 12) :=
  mstgcn_forward_deterministic_and_pure
    (MSTGCN.make 2 2 3 8 8 2 3 12) (MSTGCN.make 2 2 3 8 8 2 3 12)
    tensorScenario tensorScenario
    (EdgeIndexArg.single edges8) (EdgeIndexArg.single edges8) rfl rfl rfl

end MSTGCNSpec
